import Mathlib

/-!
Verification of the type-directed completion resolver for the GraphQL
variables editing mode (src/packages/codemirror-graphql/src/variables/hint.js).

The development shallowly embeds:
  - the external graphql type library operations the code uses
    (getNullableType, getNamedType, field maps, enum value lists, the
    boolean scalar), as a closed inductive type of input types;
  - the parse-state chain produced by the variables-mode tokenizer;
  - getTypeInfo, the type-recovery walk over the state chain;
  - getVariablesHint, the candidate-generation dispatcher.

JavaScript null/undefined becomes Option; the one expression in
getVariablesHint that can throw a TypeError (reading .kind of an undefined
substituted state) is modelled by returning Except.error.
-/

namespace GraphiQLVars

/-- An enum value of the external graphql library: a name plus an optional
description, in declaration order inside its enum type. -/
structure GraphQLEnumValue where
  name : String
  description : Option String

/-- Input types of the external graphql type library as used by the source:
scalars (the boolean scalar is `scalar "Boolean"`), enum types carrying their
declaration-ordered value list, input object types carrying their
declaration-ordered field list (field name, field type, field description),
list wrappers and non-null wrappers.  The JavaScript identity test
`namedInputType === GraphQLBoolean` is modelled by structural equality with
`GraphQLType.scalar "Boolean"`. -/
inductive GraphQLType : Type where
  | scalar (name : String)
  | enum (name : String) (values : List GraphQLEnumValue)
  | inputObject (name : String) (fields : List (String × GraphQLType × Option String))
  | list (ofType : GraphQLType)
  | nonNull (ofType : GraphQLType)

/-- The boolean scalar singleton of the graphql library. -/
def GraphQLBoolean : GraphQLType := GraphQLType.scalar "Boolean"

/-- graphql's getNullableType: strip one non-null wrapper if present;
null/undefined input yields undefined. -/
def getNullableType : Option GraphQLType → Option GraphQLType
  | some (GraphQLType.nonNull t) => some t
  | t => t

/-- graphql's getNamedType on a definite type: strip all list and non-null
wrappers down to the named type. -/
def getNamedTypeCore : GraphQLType → GraphQLType
  | GraphQLType.nonNull t => getNamedTypeCore t
  | GraphQLType.list t => getNamedTypeCore t
  | t => t

/-- graphql's getNamedType: strip all wrappers; null/undefined input yields
undefined. -/
def getNamedType : Option GraphQLType → Option GraphQLType
  | none => none
  | some t => some (getNamedTypeCore t)

/-- A node of the parse-state chain of the graphql-variables mode: a kind tag,
an integer step inside that kind's production, an optional name, and the
enclosing (previous) state.  The chain runs from the innermost state back to
the outermost one. -/
inductive ParseState : Type where
  | mk (kind : String) (step : Nat) (name : Option String) (prevState : Option ParseState)

/-- The kind tag of a parse state. -/
def ParseState.kind : ParseState → String
  | ParseState.mk k _ _ _ => k

/-- The step of a parse state. -/
def ParseState.step : ParseState → Nat
  | ParseState.mk _ s _ _ => s

/-- The optional name recorded in a parse state. -/
def ParseState.name : ParseState → Option String
  | ParseState.mk _ _ n _ => n

/-- The enclosing state of a parse state, if any. -/
def ParseState.prevState : ParseState → Option ParseState
  | ParseState.mk _ _ _ p => p

/-- Modelled from the spec: forEachState
(src/packages/codemirror-graphql/src/utils/forEachState.js) is not under
src/.  Per spec section 4.1 the State-Walker visits every state of the chain
exactly once, from the outermost ancestor to the innermost state, with no
filtering.  `stateChain` lists the states in that visiting order; the caller
folds over it. -/
def stateChain : ParseState → List ParseState
  | ParseState.mk k s n none => [ParseState.mk k s n none]
  | ParseState.mk k s n (some p) => stateChain p ++ [ParseState.mk k s n (some p)]

/-- The variable-name-to-type mapping supplied in the request options,
as an insertion-ordered association list with unique keys. -/
def VariableToType : Type := List (String × GraphQLType)

/-- The rich type information accumulated by getTypeInfo: the expected type
at the cursor and the active input-object field set, either possibly
null/undefined. -/
structure TypeInfo where
  type : Option GraphQLType
  fields : Option (List (String × GraphQLType × Option String))

/-- One step of getTypeInfo's visitor (hint.js lines 147-165): a Variable
state looks its name up in variableToType; a ListValue state strips the
nullable wrapper and descends into a list element type (else null); an
ObjectValue state installs the field map of the named type when it is an
input object type (else null); an ObjectField state with a name and an
active field set takes the named field's declared type (else null). -/
def visitState (variableToType : List (String × GraphQLType)) (info : TypeInfo)
    (state : ParseState) : TypeInfo :=
  if state.kind = "Variable" then
    { info with type :=
        match state.name with
        | some n => variableToType.lookup n
        | none => none }
  else if state.kind = "ListValue" then
    { info with type :=
        match getNullableType info.type with
        | some (GraphQLType.list t) => some t
        | _ => none }
  else if state.kind = "ObjectValue" then
    { info with fields :=
        match getNamedType info.type with
        | some (GraphQLType.inputObject _ fs) => some fs
        | _ => none }
  else if state.kind = "ObjectField" then
    { info with type :=
        match state.name, info.fields with
        | some n, some fs => (fs.lookup n).map (fun f => f.1)
        | _, _ => none }
  else info

/-- getTypeInfo (hint.js lines 141-168): start from no type and no fields and
apply `visitState` once per state of the chain, outermost first. -/
def getTypeInfo (variableToType : List (String × GraphQLType))
    (tokenState : ParseState) : TypeInfo :=
  (stateChain tokenState).foldl (visitState variableToType)
    { type := none, fields := none }

/-- A line/column position. -/
structure Pos where
  line : Nat
  column : Nat

/-- The token at the cursor as delivered by the editor: its parse state and
its extent on the cursor line. -/
structure Token where
  state : ParseState
  tokStart : Nat
  tokEnd : Nat
  string : String

/-- The request options: the optional variableToType mapping. -/
structure Options where
  variableToType : Option (List (String × GraphQLType))

/-- A completion candidate: inserted text, optional type annotation,
optional description. -/
structure Hint where
  text : String
  type : Option GraphQLType
  description : Option String

/-- The completion result handed back to the editor. -/
structure CompletionResult where
  list : List Hint
  from_ : Pos
  to_ : Pos

/-- Modelled from the spec: hintList
(src/packages/codemirror-graphql/src/utils/hintList.js) is not under src/.
Per spec sections 4.3 and 6 it assembles the resolver's ordered candidate
sequence into a CompletionResult whose positions are given in line/column
form from the cursor line and the token extent. -/
def hintList (cur : Pos) (token : Token) (list : List Hint) : CompletionResult :=
  { list := list
  , from_ := { line := cur.line, column := token.tokStart }
  , to_ := { line := cur.line, column := token.tokEnd } }

/-- The state getVariablesHint dispatches on (hint.js lines 56-57): the
token's state, except that an Invalid state is replaced by its recorded
previous state.  When an Invalid state has no previous state the JavaScript
`state.kind` read throws; that is the `none` case. -/
def dispatchState (token : Token) : Option ParseState :=
  if token.state.kind = "Invalid" then token.state.prevState else some token.state

/-- Quoted name followed by a colon and a space, the text of variable-name
and field-name candidates. -/
def quoteColon (n : String) : String := "\"" ++ n ++ "\": "

/-- Whether a state's kind/step pair is an input-value position
(hint.js lines 106-114). -/
def isValuePosition (s : ParseState) : Prop :=
  s.kind = "StringValue" ∨ s.kind = "NumberValue" ∨ s.kind = "BooleanValue" ∨
  s.kind = "NullValue" ∨ (s.kind = "ListValue" ∧ s.step = 1) ∨
  (s.kind = "ObjectField" ∧ s.step = 2) ∨ (s.kind = "Variable" ∧ s.step = 2)

instance (s : ParseState) : Decidable (isValuePosition s) := by
  unfold isValuePosition; infer_instance

/-- getVariablesHint (hint.js lines 54-137).  Returns Except.error for the
one input on which the JavaScript throws (Invalid innermost state with no
previous state), .ok none where the JavaScript returns undefined, and
.ok (some result) where it returns a hint list. -/
def getVariablesHint (cur : Pos) (token : Token) (options : Options) :
    Except String (Option CompletionResult) :=
  match dispatchState token with
  | none => Except.error "TypeError: cannot read property kind of undefined"
  | some state =>
    -- Variables can only be an object literal.
    if state.kind = "Document" ∧ state.step = 0 then
      Except.ok (some (hintList cur token [{ text := "\x7b", type := none, description := none }]))
    else
      match options.variableToType with
      | none => Except.ok none
      | some variableToType =>
        let typeInfo := getTypeInfo variableToType token.state
        -- Top level should typeahead possible variables.
        if state.kind = "Document" ∨ (state.kind = "Variable" ∧ state.step = 0) then
          Except.ok (some (hintList cur token (variableToType.map (fun nv =>
            { text := quoteColon nv.1, type := some nv.2, description := none }))))
        else
          -- Input Object fields.
          let objectHints : Option CompletionResult :=
            if state.kind = "ObjectValue" ∨ (state.kind = "ObjectField" ∧ state.step = 0) then
              match typeInfo.fields with
              | some fs => some (hintList cur token (fs.map (fun f =>
                  { text := quoteColon f.1, type := some f.2.1, description := f.2.2 })))
              | none => none
            else none
          match objectHints with
          | some r => Except.ok (some r)
          | none =>
            -- Input values.
            if isValuePosition state then
              match getNamedType typeInfo.type with
              | some (GraphQLType.inputObject _ _) =>
                Except.ok (some (hintList cur token
                  [{ text := "\x7b", type := none, description := none }]))
              | some (GraphQLType.enum en vs) =>
                Except.ok (some (hintList cur token (vs.map (fun v =>
                  { text := "\"" ++ v.name ++ "\""
                  , type := some (GraphQLType.enum en vs)
                  , description := v.description }))))
              | some (GraphQLType.scalar nm) =>
                if nm = "Boolean" then
                  Except.ok (some (hintList cur token
                    [ { text := "true", type := some GraphQLBoolean
                      , description := some "Not false." }
                    , { text := "false", type := some GraphQLBoolean
                      , description := some "Not true." } ]))
                else Except.ok none
              | _ => Except.ok none
            else Except.ok none

/-! Concrete example data used by witnesses and counterexamples. -/

/-- A concrete Int scalar. -/
def intT : GraphQLType := GraphQLType.scalar "Int"

/-- A concrete String scalar. -/
def strT : GraphQLType := GraphQLType.scalar "String"

/-- A concrete input object type with fields a : Int and b : String. -/
def objT : GraphQLType :=
  GraphQLType.inputObject "Obj" [("a", intT, none), ("b", strT, some "bee")]

/-- A concrete enum type with values RED, GREEN, BLUE in that order. -/
def colorT : GraphQLType :=
  GraphQLType.enum "Color" [⟨"RED", none⟩, ⟨"GREEN", some "g"⟩, ⟨"BLUE", none⟩]

/-- A concrete variableToType mapping. -/
def exampleVtt : List (String × GraphQLType) :=
  [("x", objT), ("c", colorT), ("flag", GraphQLBoolean)]

/-- The root Document state at step 0. -/
def docState0 : ParseState := ParseState.mk "Document" 0 none none

/-- A concrete cursor position. -/
def exampleCur : Pos := ⟨1, 4⟩

/-- A concrete token carrying a given parse state. -/
def exampleToken (s : ParseState) : Token := ⟨s, 2, 5, "t"⟩

/-! Helper lemmas shared by the claim theorems. -/

/-- The state walk applies the visitor to a one-node extension of a chain
after handling the whole enclosing chain: outer-to-inner order, once per
state. -/
theorem getTypeInfo_cons (vtt : List (String × GraphQLType)) (p : ParseState)
    (k : String) (st : Nat) (n : Option String) :
    getTypeInfo vtt (ParseState.mk k st n (some p)) =
      visitState vtt (getTypeInfo vtt p) (ParseState.mk k st n (some p)) := by
  simp [getTypeInfo, stateChain, List.foldl_append]

/-- A state whose kind matches none of the four type-recovery rules leaves
the accumulated TypeInfo unchanged. -/
theorem visitState_other (vtt : List (String × GraphQLType)) (info : TypeInfo)
    (s : ParseState) (h1 : s.kind ≠ "Variable") (h2 : s.kind ≠ "ListValue")
    (h3 : s.kind ≠ "ObjectValue") (h4 : s.kind ≠ "ObjectField") :
    visitState vtt info s = info := by
  simp [visitState, h1, h2, h3, h4]

/-- getVariablesHint, rewritten on a successfully substituted dispatch
state. -/
theorem getVariablesHint_eq (cur : Pos) (token : Token) (options : Options)
    (s : ParseState) (hs : dispatchState token = some s) :
    getVariablesHint cur token options =
      (if s.kind = "Document" ∧ s.step = 0 then
        Except.ok (some (hintList cur token
          [{ text := "\x7b", type := none, description := none }]))
      else
        match options.variableToType with
        | none => Except.ok none
        | some variableToType =>
          if s.kind = "Document" ∨ (s.kind = "Variable" ∧ s.step = 0) then
            Except.ok (some (hintList cur token (variableToType.map (fun nv =>
              { text := quoteColon nv.1, type := some nv.2, description := none }))))
          else
            match
              (if s.kind = "ObjectValue" ∨ (s.kind = "ObjectField" ∧ s.step = 0) then
                match (getTypeInfo variableToType token.state).fields with
                | some fs => some (hintList cur token (fs.map (fun f =>
                    { text := quoteColon f.1, type := some f.2.1, description := f.2.2 })))
                | none => none
              else none) with
            | some r => Except.ok (some r)
            | none =>
              if isValuePosition s then
                match getNamedType (getTypeInfo variableToType token.state).type with
                | some (GraphQLType.inputObject _ _) =>
                  Except.ok (some (hintList cur token
                    [{ text := "\x7b", type := none, description := none }]))
                | some (GraphQLType.enum en vs) =>
                  Except.ok (some (hintList cur token (vs.map (fun v =>
                    { text := "\"" ++ v.name ++ "\""
                    , type := some (GraphQLType.enum en vs)
                    , description := v.description }))))
                | some (GraphQLType.scalar nm) =>
                  if nm = "Boolean" then
                    Except.ok (some (hintList cur token
                      [ { text := "true", type := some GraphQLBoolean
                        , description := some "Not false." }
                      , { text := "false", type := some GraphQLBoolean
                        , description := some "Not true." } ]))
                  else Except.ok none
                | _ => Except.ok none
              else Except.ok none) := by
  unfold getVariablesHint
  rw [hs]

/-- C2: whenever the dispatch state (after Invalid substitution) has kind
Document and step 0, getVariablesHint returns exactly one candidate, the
open-brace literal, whether or not the options carry a variableToType
mapping. -/
theorem document_step0_single_brace (cur : Pos) (token : Token)
    (options : Options) (s : ParseState) (hs : dispatchState token = some s)
    (hk : s.kind = "Document") (hstep : s.step = 0) :
    getVariablesHint cur token options =
      Except.ok (some (hintList cur token
        [{ text := "\x7b", type := none, description := none }])) ∧
    (hintList cur token
        [{ text := "\x7b", type := none, description := none }]).list =
      [{ text := "\x7b", type := none, description := none }] := by
  refine ⟨?_, rfl⟩
  rw [getVariablesHint_eq cur token options s hs]
  simp [hk, hstep]

/-- C2 witness: the Document step-0 brace hint fires on a concrete request,
both with the mapping absent and with it present. -/
theorem document_step0_single_brace_witness :
    (getVariablesHint exampleCur (exampleToken docState0) ⟨none⟩ =
      Except.ok (some (hintList exampleCur (exampleToken docState0)
        [{ text := "\x7b", type := none, description := none }])) ∧
      (hintList exampleCur (exampleToken docState0)
        [{ text := "\x7b", type := none, description := none }]).list =
      [{ text := "\x7b", type := none, description := none }]) ∧
    (getVariablesHint exampleCur (exampleToken docState0) ⟨some exampleVtt⟩ =
      Except.ok (some (hintList exampleCur (exampleToken docState0)
        [{ text := "\x7b", type := none, description := none }])) ∧
      (hintList exampleCur (exampleToken docState0)
        [{ text := "\x7b", type := none, description := none }]).list =
      [{ text := "\x7b", type := none, description := none }]) :=
  ⟨document_step0_single_brace exampleCur (exampleToken docState0) ⟨none⟩
      docState0 rfl rfl rfl,
    document_step0_single_brace exampleCur (exampleToken docState0)
      ⟨some exampleVtt⟩ docState0 rfl rfl rfl⟩

/-- C7: when the options carry no variableToType mapping, resolution yields
no result for every dispatch state except Document at step 0, whose brace
hint still fires. -/
theorem no_mapping_short_circuits (cur : Pos) (token : Token)
    (options : Options) (s : ParseState)
    (hvt : options.variableToType = none)
    (hs : dispatchState token = some s) :
    getVariablesHint cur token options =
      (if s.kind = "Document" ∧ s.step = 0 then
        Except.ok (some (hintList cur token
          [{ text := "\x7b", type := none, description := none }]))
      else Except.ok none) := by
  rw [getVariablesHint_eq cur token options s hs]
  split
  · rfl
  · rw [hvt]

/-- C7 witness: with no mapping, a Variable step-0 request yields nothing
while a Document step-0 request still yields the brace hint. -/
theorem no_mapping_short_circuits_witness :
    (getVariablesHint exampleCur
        (exampleToken (ParseState.mk "Variable" 0 none (some docState0)))
        ⟨none⟩ = Except.ok none) ∧
    (getVariablesHint exampleCur (exampleToken docState0) ⟨none⟩ =
      Except.ok (some (hintList exampleCur (exampleToken docState0)
        [{ text := "\x7b", type := none, description := none }]))) := by
  constructor
  · have h := no_mapping_short_circuits exampleCur
      (exampleToken (ParseState.mk "Variable" 0 none (some docState0))) ⟨none⟩
      (ParseState.mk "Variable" 0 none (some docState0)) rfl rfl
    simpa using h
  · have h := no_mapping_short_circuits exampleCur (exampleToken docState0)
      ⟨none⟩ docState0 rfl rfl
    simpa using h

/-- C9: resolution is deterministic and side-effect free — two resolutions
of the same (cursor, token, options) input are equal, and two type-recovery
passes over the same (variableToType, state chain) input are equal; in the
embedding getVariablesHint and getTypeInfo are pure functions of their
arguments. -/
theorem resolution_deterministic (cur : Pos) (token : Token)
    (options : Options) (vtt : List (String × GraphQLType))
    (r1 r2 : Except String (Option CompletionResult)) (i1 i2 : TypeInfo)
    (h1 : r1 = getVariablesHint cur token options)
    (h2 : r2 = getVariablesHint cur token options)
    (h3 : i1 = getTypeInfo vtt token.state)
    (h4 : i2 = getTypeInfo vtt token.state) :
    r1 = r2 ∧ i1 = i2 :=
  ⟨h1.trans h2.symm, h3.trans h4.symm⟩

/-- C9 witness: determinism at a concrete request. -/
theorem resolution_deterministic_witness :
    getVariablesHint exampleCur (exampleToken docState0) ⟨some exampleVtt⟩ =
      getVariablesHint exampleCur (exampleToken docState0) ⟨some exampleVtt⟩ ∧
    getTypeInfo exampleVtt (exampleToken docState0).state =
      getTypeInfo exampleVtt (exampleToken docState0).state :=
  resolution_deterministic exampleCur (exampleToken docState0)
    ⟨some exampleVtt⟩ exampleVtt _ _ _ _ rfl rfl rfl rfl

/-- C10: the Invalid substitution is applied exactly once — when both the
innermost state and its previous state have kind Invalid, the dispatch state
is still the Invalid previous state, which matches no candidate branch, and
the result is no candidates. -/
theorem invalid_substitution_once (cur : Pos) (token : Token)
    (options : Options) (q : ParseState)
    (hk : token.state.kind = "Invalid")
    (hp : token.state.prevState = some q)
    (hq : q.kind = "Invalid") :
    dispatchState token = some q ∧
    getVariablesHint cur token options = Except.ok none := by
  have hd : dispatchState token = some q := by
    simp [dispatchState, hk, hp]
  refine ⟨hd, ?_⟩
  rw [getVariablesHint_eq cur token options q hd]
  simp only [hq]
  cases hv : options.variableToType <;> simp [isValuePosition, hq]

/-- C10 witness: a doubly-Invalid chain over a Document step-0 root yields
no candidates. -/
theorem invalid_substitution_once_witness :
    dispatchState (exampleToken (ParseState.mk "Invalid" 1 none
        (some (ParseState.mk "Invalid" 1 none (some docState0))))) =
      some (ParseState.mk "Invalid" 1 none (some docState0)) ∧
    getVariablesHint exampleCur
      (exampleToken (ParseState.mk "Invalid" 1 none
        (some (ParseState.mk "Invalid" 1 none (some docState0)))))
      ⟨some exampleVtt⟩ = Except.ok none :=
  invalid_substitution_once exampleCur
    (exampleToken (ParseState.mk "Invalid" 1 none
      (some (ParseState.mk "Invalid" 1 none (some docState0)))))
    ⟨some exampleVtt⟩ (ParseState.mk "Invalid" 1 none (some docState0))
    rfl rfl rfl

/-- C1: the type-recovery pass applies its rules once per state in
outer-to-inner order — extending any chain with a Variable state sets the
current type to the mapping's entry for its name; with a ListValue state it
unwraps the nullable wrapper and descends into a list element type, else
null; with an ObjectValue state it sets the field set to the field map of
the current type's named form when that is an input-object type, else null;
with an ObjectField state it sets the current type to the named field's
declared type, else null.  Consequently the chain
Variable(x) → ObjectValue → ObjectField(y) recovers the declared type of
field y on the object type variable x maps to. -/
theorem type_recovery_rules (vtt : List (String × GraphQLType))
    (x y : String) (vstep ostep fstep : Nat) (onm : Option String)
    (T fty : GraphQLType) (tn : String)
    (fs : List (String × GraphQLType × Option String)) (d : Option String)
    (hx : vtt.lookup x = some T)
    (hT : getNamedTypeCore T = GraphQLType.inputObject tn fs)
    (hy : fs.lookup y = some (fty, d)) :
    (∀ (p : ParseState) (st : Nat) (n : Option String),
      getTypeInfo vtt (ParseState.mk "Variable" st n (some p)) =
        { getTypeInfo vtt p with type :=
            (match n with
            | some nm => vtt.lookup nm
            | none => none) }) ∧
    (∀ (p : ParseState) (st : Nat) (n : Option String),
      getTypeInfo vtt (ParseState.mk "ListValue" st n (some p)) =
        { getTypeInfo vtt p with type :=
            (match getNullableType (getTypeInfo vtt p).type with
            | some (GraphQLType.list t) => some t
            | _ => none) }) ∧
    (∀ (p : ParseState) (st : Nat) (n : Option String),
      getTypeInfo vtt (ParseState.mk "ObjectValue" st n (some p)) =
        { getTypeInfo vtt p with fields :=
            (match getNamedType (getTypeInfo vtt p).type with
            | some (GraphQLType.inputObject _ gs) => some gs
            | _ => none) }) ∧
    (∀ (p : ParseState) (st : Nat) (n : Option String),
      getTypeInfo vtt (ParseState.mk "ObjectField" st n (some p)) =
        { getTypeInfo vtt p with type :=
            (match n, (getTypeInfo vtt p).fields with
            | some nm, some gs => (gs.lookup nm).map (fun f => f.1)
            | _, _ => none) }) ∧
    ((getTypeInfo vtt (ParseState.mk "ObjectField" fstep (some y) (some
        (ParseState.mk "ObjectValue" ostep onm (some
          (ParseState.mk "Variable" vstep (some x) none)))))).type = some fty) := by
  refine ⟨?_, ?_, ?_, ?_, ?_⟩
  · intro p st n
    rw [getTypeInfo_cons]
    simp [visitState, ParseState.kind, ParseState.name]
  · intro p st n
    rw [getTypeInfo_cons]
    simp [visitState, ParseState.kind]
  · intro p st n
    rw [getTypeInfo_cons]
    simp [visitState, ParseState.kind]
  · intro p st n
    rw [getTypeInfo_cons]
    simp [visitState, ParseState.kind, ParseState.name]
  · simp [getTypeInfo, stateChain, visitState, ParseState.kind,
      ParseState.name, hx, getNamedType, hT, hy]

/-- C1 witness: on a concrete mapping, the chain
Variable(x) → ObjectValue → ObjectField(b) recovers the String type of
field b of the input object type of variable x. -/
theorem type_recovery_rules_witness :
    (getTypeInfo exampleVtt (ParseState.mk "ObjectField" 0 (some "b") (some
        (ParseState.mk "ObjectValue" 1 none (some
          (ParseState.mk "Variable" 2 (some "x") none)))))).type = some strT :=
  (type_recovery_rules exampleVtt "x" "b" 2 1 0 none objT strT "Obj"
    [("a", intT, none), ("b", strT, some "bee")] (some "bee")
    rfl rfl rfl).2.2.2.2

/-- C3: with a variableToType mapping present, a dispatch state of kind
Document at a non-zero step, or of kind Variable at step 0, yields exactly
one candidate per entry of the mapping, the quoted variable name followed
by a colon and a space, annotated with the variable's declared type. -/
theorem variable_name_candidates (cur : Pos) (token : Token)
    (options : Options) (vtt : List (String × GraphQLType)) (s : ParseState)
    (hvt : options.variableToType = some vtt) (_hne : vtt ≠ [])
    (hs : dispatchState token = some s)
    (hk : (s.kind = "Document" ∧ s.step ≠ 0) ∨
          (s.kind = "Variable" ∧ s.step = 0)) :
    getVariablesHint cur token options =
      Except.ok (some (hintList cur token (vtt.map (fun nv =>
        Hint.mk (quoteColon nv.1) (some nv.2) none)))) ∧
    (vtt.map (fun nv => Hint.mk (quoteColon nv.1) (some nv.2) none)).length =
      vtt.length := by
  refine ⟨?_, List.length_map _ _⟩
  rw [getVariablesHint_eq cur token options s hs]
  rcases hk with ⟨hk1, hk2⟩ | ⟨hk1, hk2⟩
  · simp [hvt, hk1, hk2]
  · simp [hvt, hk1, hk2]

/-- C3 witness: a Variable step-0 state over the document root yields the
three variable-name candidates of the concrete mapping. -/
theorem variable_name_candidates_witness :
    getVariablesHint exampleCur
      (exampleToken (ParseState.mk "Variable" 0 none (some docState0)))
      ⟨some exampleVtt⟩ =
      Except.ok (some (hintList exampleCur
        (exampleToken (ParseState.mk "Variable" 0 none (some docState0)))
        (exampleVtt.map (fun nv =>
          Hint.mk (quoteColon nv.1) (some nv.2) none)))) ∧
    (exampleVtt.map (fun nv =>
      Hint.mk (quoteColon nv.1) (some nv.2) none)).length =
      exampleVtt.length :=
  variable_name_candidates exampleCur
    (exampleToken (ParseState.mk "Variable" 0 none (some docState0)))
    ⟨some exampleVtt⟩ exampleVtt
    (ParseState.mk "Variable" 0 none (some docState0))
    rfl (by simp [exampleVtt]) rfl (Or.inr ⟨rfl, rfl⟩)

/-- C4: with a mapping present, a dispatch state of kind ObjectValue, or of
kind ObjectField at step 0, whose type recovery produced an active field
set, yields exactly one candidate per field of that set, in
field-declaration order, the quoted field name followed by a colon and a
space, annotated with the field's declared type and description. -/
theorem object_field_candidates (cur : Pos) (token : Token)
    (options : Options) (vtt : List (String × GraphQLType)) (s : ParseState)
    (fs : List (String × GraphQLType × Option String))
    (hvt : options.variableToType = some vtt)
    (hs : dispatchState token = some s)
    (hk : s.kind = "ObjectValue" ∨ (s.kind = "ObjectField" ∧ s.step = 0))
    (hf : (getTypeInfo vtt token.state).fields = some fs) :
    getVariablesHint cur token options =
      Except.ok (some (hintList cur token (fs.map (fun f =>
        Hint.mk (quoteColon f.1) (some f.2.1) f.2.2)))) ∧
    (fs.map (fun f =>
      Hint.mk (quoteColon f.1) (some f.2.1) f.2.2)).length = fs.length := by
  refine ⟨?_, List.length_map _ _⟩
  rw [getVariablesHint_eq cur token options s hs]
  rcases hk with hk | ⟨hk1, hk2⟩
  · simp [hvt, hk, hf]
  · simp [hvt, hk1, hk2, hf]

/-- C4 witness: for the object-typed variable x with fields a : Int and
b : String, the chain Variable(x) → ObjectValue yields the two field
candidates in declared order, each with a trailing colon and space. -/
theorem object_field_candidates_witness :
    getVariablesHint exampleCur
      (exampleToken (ParseState.mk "ObjectValue" 1 none (some
        (ParseState.mk "Variable" 2 (some "x") (some docState0)))))
      ⟨some exampleVtt⟩ =
      Except.ok (some (hintList exampleCur
        (exampleToken (ParseState.mk "ObjectValue" 1 none (some
          (ParseState.mk "Variable" 2 (some "x") (some docState0)))))
        ([("a", intT, none), ("b", strT, some "bee")].map (fun f =>
          Hint.mk (quoteColon f.1) (some f.2.1) f.2.2)))) ∧
    ([("a", intT, none), ("b", strT, some "bee")].map (fun f =>
      Hint.mk (quoteColon f.1) (some f.2.1) f.2.2)).length =
      [("a", intT, none), ("b", strT, some "bee")].length :=
  object_field_candidates exampleCur
    (exampleToken (ParseState.mk "ObjectValue" 1 none (some
      (ParseState.mk "Variable" 2 (some "x") (some docState0)))))
    ⟨some exampleVtt⟩ exampleVtt
    (ParseState.mk "ObjectValue" 1 none (some
      (ParseState.mk "Variable" 2 (some "x") (some docState0))))
    [("a", intT, none), ("b", strT, some "bee")]
    rfl rfl (Or.inl rfl) rfl

/-- On a value-position dispatch state with a mapping present, the resolver
reduces to the named form of the recovered type. -/
theorem getVariablesHint_value_eq (cur : Pos) (token : Token)
    (options : Options) (vtt : List (String × GraphQLType)) (s : ParseState)
    (hvt : options.variableToType = some vtt)
    (hs : dispatchState token = some s)
    (hv : isValuePosition s) :
    getVariablesHint cur token options =
      (match getNamedType (getTypeInfo vtt token.state).type with
       | some (GraphQLType.inputObject _ _) =>
         Except.ok (some (hintList cur token [Hint.mk "\x7b" none none]))
       | some (GraphQLType.enum en vs) =>
         Except.ok (some (hintList cur token (vs.map (fun v =>
           Hint.mk ("\"" ++ v.name ++ "\"") (some (GraphQLType.enum en vs))
             v.description))))
       | some (GraphQLType.scalar nm) =>
         if nm = "Boolean" then
           Except.ok (some (hintList cur token
             [ Hint.mk "true" (some GraphQLBoolean) (some "Not false.")
             , Hint.mk "false" (some GraphQLBoolean) (some "Not true.") ]))
         else Except.ok none
       | _ => Except.ok none) := by
  rw [getVariablesHint_eq cur token options s hs]
  rcases hv with h | h | h | h | ⟨h1, h2⟩ | ⟨h1, h2⟩ | ⟨h1, h2⟩ <;>
    simp [hvt, isValuePosition, *]

/-- C5: for a value-position dispatch state (StringValue, NumberValue,
BooleanValue, NullValue, ListValue at step 1, ObjectField at step 2 or
Variable at step 2), the candidates come from the named form of the
recovered type — an input-object type yields the single open-brace
candidate; an enum type yields one candidate per value in declaration
order, the quoted value name annotated with the enum type and the value's
description; the boolean scalar yields true then false with descriptions
"Not false." and "Not true.". -/
theorem value_position_candidates (cur : Pos) (token : Token)
    (options : Options) (vtt : List (String × GraphQLType)) (s : ParseState)
    (hvt : options.variableToType = some vtt)
    (hs : dispatchState token = some s)
    (hv : isValuePosition s) :
    (∀ tn tf, getNamedType (getTypeInfo vtt token.state).type =
        some (GraphQLType.inputObject tn tf) →
      getVariablesHint cur token options =
        Except.ok (some (hintList cur token [Hint.mk "\x7b" none none]))) ∧
    (∀ en vs, getNamedType (getTypeInfo vtt token.state).type =
        some (GraphQLType.enum en vs) →
      getVariablesHint cur token options =
        Except.ok (some (hintList cur token (vs.map (fun v =>
          Hint.mk ("\"" ++ v.name ++ "\"") (some (GraphQLType.enum en vs))
            v.description))))) ∧
    (getNamedType (getTypeInfo vtt token.state).type = some GraphQLBoolean →
      getVariablesHint cur token options =
        Except.ok (some (hintList cur token
          [ Hint.mk "true" (some GraphQLBoolean) (some "Not false.")
          , Hint.mk "false" (some GraphQLBoolean) (some "Not true.") ]))) := by
  refine ⟨?_, ?_, ?_⟩
  · intro tn tf h
    rw [getVariablesHint_value_eq cur token options vtt s hvt hs hv, h]
  · intro en vs h
    rw [getVariablesHint_value_eq cur token options vtt s hvt hs hv, h]
  · intro h
    rw [getVariablesHint_value_eq cur token options vtt s hvt hs hv, h]
    simp [GraphQLBoolean]

/-- C5 witness: a Variable step-2 chain over an enum-typed variable yields
the three quoted enum values in declaration order, and over a boolean-typed
variable yields true then false. -/
theorem value_position_candidates_witness :
    (getVariablesHint exampleCur
      (exampleToken (ParseState.mk "Variable" 2 (some "c") (some docState0)))
      ⟨some exampleVtt⟩ =
      Except.ok (some (hintList exampleCur
        (exampleToken (ParseState.mk "Variable" 2 (some "c") (some docState0)))
        ([(⟨"RED", none⟩ : GraphQLEnumValue), ⟨"GREEN", some "g"⟩,
          ⟨"BLUE", none⟩].map (fun v =>
          Hint.mk ("\"" ++ v.name ++ "\"")
            (some (GraphQLType.enum "Color"
              [⟨"RED", none⟩, ⟨"GREEN", some "g"⟩, ⟨"BLUE", none⟩]))
            v.description))))) ∧
    (getVariablesHint exampleCur
      (exampleToken (ParseState.mk "Variable" 2 (some "flag") (some docState0)))
      ⟨some exampleVtt⟩ =
      Except.ok (some (hintList exampleCur
        (exampleToken (ParseState.mk "Variable" 2 (some "flag") (some docState0)))
        [ Hint.mk "true" (some GraphQLBoolean) (some "Not false.")
        , Hint.mk "false" (some GraphQLBoolean) (some "Not true.") ]))) :=
  ⟨(value_position_candidates exampleCur
      (exampleToken (ParseState.mk "Variable" 2 (some "c") (some docState0)))
      ⟨some exampleVtt⟩ exampleVtt
      (ParseState.mk "Variable" 2 (some "c") (some docState0))
      rfl rfl (Or.inr (Or.inr (Or.inr (Or.inr (Or.inr (Or.inr ⟨rfl, rfl⟩))))))).2.1
      "Color" [⟨"RED", none⟩, ⟨"GREEN", some "g"⟩, ⟨"BLUE", none⟩] rfl,
   (value_position_candidates exampleCur
      (exampleToken (ParseState.mk "Variable" 2 (some "flag") (some docState0)))
      ⟨some exampleVtt⟩ exampleVtt
      (ParseState.mk "Variable" 2 (some "flag") (some docState0))
      rfl rfl (Or.inr (Or.inr (Or.inr (Or.inr (Or.inr (Or.inr ⟨rfl, rfl⟩))))))).2.2
      rfl⟩

/-- C6 counterexample: an innermost Invalid state whose previous state is
itself Invalid (over a Document step-0 root) resolves to no candidates,
while resolving with that previous state as the innermost state directly
yields the open-brace hint — the two results differ. -/
theorem invalid_substitution_not_transparent :
    getVariablesHint exampleCur
      (exampleToken (ParseState.mk "Invalid" 1 none (some
        (ParseState.mk "Invalid" 1 none (some docState0))))) ⟨none⟩ ≠
    getVariablesHint exampleCur
      (exampleToken (ParseState.mk "Invalid" 1 none (some docState0)))
      ⟨none⟩ := by
  intro h
  have h1 : getVariablesHint exampleCur
      (exampleToken (ParseState.mk "Invalid" 1 none (some
        (ParseState.mk "Invalid" 1 none (some docState0))))) ⟨none⟩ =
      Except.ok (none : Option CompletionResult) := rfl
  have h2 : getVariablesHint exampleCur
      (exampleToken (ParseState.mk "Invalid" 1 none (some docState0)))
      ⟨none⟩ =
      Except.ok (some (hintList exampleCur
        (exampleToken (ParseState.mk "Invalid" 1 none (some docState0)))
        [Hint.mk "\x7b" none none])) := rfl
  rw [h1, h2] at h
  simp at h

/-- C6 (amended): when the innermost state has kind Invalid and its
recorded previous state is not itself Invalid, the result equals resolving
with that previous state as the innermost state directly; in particular a
previous Document step-0 state yields the single open-brace candidate. -/
theorem invalid_substitution_transparent (cur : Pos) (token : Token)
    (options : Options) (p : ParseState)
    (hk : token.state.kind = "Invalid")
    (hp : token.state.prevState = some p)
    (hpk : p.kind ≠ "Invalid") :
    getVariablesHint cur token options =
      getVariablesHint cur { token with state := p } options ∧
    (p.kind = "Document" → p.step = 0 →
      getVariablesHint cur token options =
        Except.ok (some (hintList cur token [Hint.mk "\x7b" none none]))) := by
  have hd1 : dispatchState token = some p := by
    simp [dispatchState, hk, hp]
  have hd2 : dispatchState { token with state := p } = some p := by
    simp [dispatchState, hpk]
  rcases ht : token.state with ⟨k, st, n, pr⟩
  rw [ht] at hk hp
  simp only [ParseState.kind] at hk
  simp only [ParseState.prevState] at hp
  subst hk
  subst hp
  have hti : ∀ vtt : List (String × GraphQLType),
      getTypeInfo vtt token.state = getTypeInfo vtt p := by
    intro vtt
    rw [ht, getTypeInfo_cons]
    apply visitState_other <;> simp [ParseState.kind]
  constructor
  · rw [getVariablesHint_eq cur token options p hd1,
      getVariablesHint_eq cur { token with state := p } options p hd2]
    cases hvt : options.variableToType <;>
      simp [hvt, hintList, hti]
  · intro hdk hds
    rw [getVariablesHint_eq cur token options p hd1]
    simp [hdk, hds]

/-- C6 (amended) witness: a concrete Invalid state over the Document
step-0 root resolves exactly as the root does, to the single open-brace
candidate. -/
theorem invalid_substitution_transparent_witness :
    getVariablesHint exampleCur
      (exampleToken (ParseState.mk "Invalid" 1 none (some docState0)))
      ⟨none⟩ =
      Except.ok (some (hintList exampleCur
        (exampleToken (ParseState.mk "Invalid" 1 none (some docState0)))
        [Hint.mk "\x7b" none none])) :=
  (invalid_substitution_transparent exampleCur
    (exampleToken (ParseState.mk "Invalid" 1 none (some docState0)))
    ⟨none⟩ docState0 rfl rfl (by decide)).2 rfl rfl

/-- C8 counterexample: a finite acyclic chain consisting of a single
Invalid state with no previous state makes resolution fault (the
JavaScript reads .kind of an undefined substituted state), instead of
degrading to no candidates. -/
theorem invalid_root_state_throws :
    getVariablesHint exampleCur
      (exampleToken (ParseState.mk "Invalid" 0 none none))
      ⟨some exampleVtt⟩ =
      Except.error "TypeError: cannot read property kind of undefined" := rfl

/-- C8 (amended): resolution never faults provided the innermost state, if
Invalid, records a previous state; unresolved lookups degrade — in
particular a Variable whose name is absent from the mapping followed by an
ObjectValue state yields no field set and no candidates. -/
theorem resolution_never_throws (cur : Pos) (token : Token)
    (options : Options)
    (hInv : token.state.kind = "Invalid" → token.state.prevState ≠ none) :
    (∃ r, getVariablesHint cur token options = Except.ok r) ∧
    (∀ (vtt : List (String × GraphQLType)) (x : String) (st1 st2 : Nat)
        (nm : Option String) (cur2 : Pos) (tok2 : Token),
      vtt.lookup x = none →
      tok2.state = ParseState.mk "ObjectValue" st2 nm
        (some (ParseState.mk "Variable" st1 (some x) none)) →
      (getTypeInfo vtt tok2.state).fields = none ∧
      getVariablesHint cur2 tok2 ⟨some vtt⟩ = Except.ok none) := by
  constructor
  · rcases hd : dispatchState token with _ | s
    · exfalso
      unfold dispatchState at hd
      by_cases hk : token.state.kind = "Invalid"
      · rw [if_pos hk] at hd
        exact hInv hk hd
      · rw [if_neg hk] at hd
        exact Option.noConfusion hd
    · rw [getVariablesHint_eq cur token options s hd]
      repeat first | exact ⟨_, rfl⟩ | split
  · intro vtt x st1 st2 nm cur2 tok2 hx hts
    have hfields : (getTypeInfo vtt tok2.state).fields = none := by
      rw [hts]
      simp [getTypeInfo, stateChain, visitState, ParseState.kind,
        ParseState.name, hx, getNamedType]
    refine ⟨hfields, ?_⟩
    have hd : dispatchState tok2 = some (ParseState.mk "ObjectValue" st2 nm
        (some (ParseState.mk "Variable" st1 (some x) none))) := by
      simp [dispatchState, hts, ParseState.kind]
    rw [getVariablesHint_eq cur2 tok2 ⟨some vtt⟩ _ hd]
    simp [ParseState.kind, ParseState.step, hfields, isValuePosition]

/-- C8 (amended) witness: a concrete non-Invalid request resolves without
fault, and a concrete unknown-variable ObjectValue chain yields no field
set and no candidates. -/
theorem resolution_never_throws_witness :
    (∃ r, getVariablesHint exampleCur (exampleToken docState0)
      ⟨some exampleVtt⟩ = Except.ok r) ∧
    ((getTypeInfo exampleVtt
        (exampleToken (ParseState.mk "ObjectValue" 1 none (some
          (ParseState.mk "Variable" 2 (some "zzz") none)))).state).fields =
      none ∧
      getVariablesHint exampleCur
        (exampleToken (ParseState.mk "ObjectValue" 1 none (some
          (ParseState.mk "Variable" 2 (some "zzz") none))))
        ⟨some exampleVtt⟩ = Except.ok none) :=
  ⟨(resolution_never_throws exampleCur (exampleToken docState0)
      ⟨some exampleVtt⟩ (fun h => absurd h (by decide))).1,
   (resolution_never_throws exampleCur (exampleToken docState0)
      ⟨some exampleVtt⟩ (fun h => absurd h (by decide))).2
      exampleVtt "zzz" 2 1 none exampleCur
      (exampleToken (ParseState.mk "ObjectValue" 1 none (some
        (ParseState.mk "Variable" 2 (some "zzz") none)))) rfl rfl⟩

end GraphiQLVars
